import Mathlib

/-!
Shallow embedding of `crates/router/src/connector/threedsecureio/transformers.rs`
(hyperswitch connector-integration framework, threedsecure.io adapter) together
with the pieces of the canonical data model it uses.

Conventions of the embedding:
* Rust `Result<T, error_stack::Report<ConnectorError>>` is `Except ConnectorError T`
  (the claims are about error *kinds*; the printable context chain attached to a
  report does not change the kind and is not modelled).
* Rust `i64` amounts are `Int` (no claim exercises overflow).
* `masking::Secret<T>` is a one-field wrapper with explicit `expose`/`peek`.
* The implicit clock read `date_time::now()` in the authentication-request
  conversion is threaded as an explicit `now` argument.
-/

set_option maxHeartbeats 1000000

/-- `masking::Secret<T>`: secret-bearing wrapper with explicit exposure. -/
structure Secret (α : Type) where
  value : α
deriving DecidableEq, Repr

/-- `masking::ExposeInterface::expose`. -/
def Secret.expose {α : Type} (s : Secret α) : α := s.value

/-- `masking::PeekInterface::peek`. -/
def Secret.peek {α : Type} (s : Secret α) : α := s.value

/-- `cards::CardNumber` (validated card number; validation is out of scope here,
the adapter only moves the value around). -/
structure CardNumber where
  value : String
deriving DecidableEq, Repr

/-- `cards::CardNumber::get_card_no`. -/
def CardNumber.get_card_no (c : CardNumber) : String := c.value

/-- The variants of `errors::ConnectorError` exercised by this adapter
(`crates/router/src/core/errors.rs` taxonomy, restricted to the kinds the
source file constructs). -/
inductive ConnectorError where
  | NotImplemented (feature : String)
  | FailedToObtainAuthType
  | RequestEncodingFailed
  | ResponseDeserializationFailed
deriving DecidableEq, Repr

/-- Rust `Option::ok_or` into the `Except` error monad. -/
def Option.okOr {α : Type} (o : Option α) (e : ConnectorError) : Except ConnectorError α :=
  match o with
  | some a => Except.ok a
  | none => Except.error e

namespace enums

/-- `storage::enums::Currency`, restricted to a representative subset of the
ISO codes (the adapter only ever calls `to_string` on it). -/
inductive Currency where
  | USD
  | EUR
  | GBP
  | JPY
  | INR
deriving DecidableEq, Repr

/-- `Currency::to_string` (the ISO 4217 alpha code). -/
def Currency.toStr : Currency → String
  | .USD => "USD"
  | .EUR => "EUR"
  | .GBP => "GBP"
  | .JPY => "JPY"
  | .INR => "INR"

/-- `storage::enums::AttemptStatus`, restricted to the variants this adapter
maps onto plus a few other canonical statuses. -/
inductive AttemptStatus where
  | Charged
  | Failure
  | Authorizing
  | Pending
  | Started
deriving DecidableEq, Repr

/-- `storage::enums::RefundStatus` (canonical refund status). -/
inductive RefundStatus where
  | Failure
  | ManualReview
  | Pending
  | Success
deriving DecidableEq, Repr

/-- `storage::enums::CaptureMethod`. -/
inductive CaptureMethod where
  | Automatic
  | Manual
  | ManualMultiple
  | Scheduled
deriving DecidableEq, Repr

/-- `common_enums::CountryAlpha2`, restricted to a representative subset. -/
inductive CountryAlpha2 where
  | US
  | FR
  | DE
  | IN
  | GB
deriving DecidableEq, Repr

/-- `CountryAlpha2::to_string` (the ISO 3166 alpha-2 code). -/
def CountryAlpha2.toStr : CountryAlpha2 → String
  | .US => "US"
  | .FR => "FR"
  | .DE => "DE"
  | .IN => "IN"
  | .GB => "GB"

end enums

/-- `iso_currency::Currency` as used here: only its ISO 4217 numeric code is read. -/
structure IsoCurrency where
  numericCode : Nat
deriving DecidableEq, Repr

/-- `iso_currency::Currency::numeric().to_string()`. -/
def IsoCurrency.numericStr (c : IsoCurrency) : String := toString c.numericCode

/-- `iso_currency::Currency::from_code`: recognizes ISO 4217 alpha codes
(restricted to the codes of the embedded `enums.Currency`). -/
def IsoCurrency.from_code (s : String) : Option IsoCurrency :=
  match s with
  | "USD" => some ⟨840⟩
  | "EUR" => some ⟨978⟩
  | "GBP" => some ⟨826⟩
  | "JPY" => some ⟨392⟩
  | "INR" => some ⟨356⟩
  | _ => none

/-- `isocountry::CountryCode` as used here: only `numeric_id` is read. -/
structure CountryCode where
  numericId : Nat
deriving DecidableEq, Repr

/-- `isocountry::CountryCode::for_alpha2` (restricted to the codes of the
embedded `enums.CountryAlpha2`; every value of that enum is a valid ISO
alpha-2 code, so each is recognized). -/
def CountryCode.for_alpha2 (s : String) : Option CountryCode :=
  match s with
  | "US" => some ⟨840⟩
  | "FR" => some ⟨250⟩
  | "DE" => some ⟨276⟩
  | "IN" => some ⟨356⟩
  | "GB" => some ⟨826⟩
  | _ => none

/-- `api_models::payments::Card` (the fields this adapter reads). -/
structure Card where
  card_number : CardNumber
  card_exp_month : Secret String
  card_exp_year : Secret String
  card_cvc : Secret String
deriving DecidableEq, Repr

/-- `api_models::payments::PaymentMethodData`: closed set of payment-method
variants; the adapter supports only `Card`, the others are carried abstractly. -/
inductive PaymentMethodData where
  | Card (card : Card)
  | Wallet
  | BankRedirect
  | BankTransfer
  | PayLater
deriving DecidableEq, Repr

/-- `types::ConnectorAuthType`: closed set of credential shapes. -/
inductive ConnectorAuthType where
  | HeaderKey (api_key : Secret String)
  | BodyKey (api_key : Secret String) (key1 : Secret String)
  | SignatureKey (api_key : Secret String) (key1 : Secret String) (api_secret : Secret String)
  | MultiAuthKey (api_key : Secret String) (key1 : Secret String) (api_secret : Secret String)
      (key2 : Secret String)
  | NoKey
deriving DecidableEq, Repr

/-- `types::ErrorResponse` (processor-reported business error payload, carried
as data in the envelope's outcome slot). -/
structure ErrorResponse where
  code : String
  message : String
  status_code : Nat
deriving DecidableEq, Repr

/-- `types::ResponseId`. -/
inductive ResponseId where
  | ConnectorTransactionId (id : String)
  | EncodedData (d : String)
  | NoResponseId
deriving DecidableEq, Repr

/-- `services::RedirectForm` (opaque here: the adapter only ever writes `None`). -/
structure RedirectForm where
  endpoint : String
deriving DecidableEq, Repr

/-- `types::MandateReference` (opaque here: the adapter only ever writes `None`). -/
structure MandateReference where
  connector_mandate_id : Option String
deriving DecidableEq, Repr

/-- `types::PaymentsResponseData`, restricted to the variant this adapter builds. -/
inductive PaymentsResponseData where
  | TransactionResponse
      (resource_id : ResponseId)
      (redirection_data : Option RedirectForm)
      (mandate_reference : Option MandateReference)
      (connector_metadata : Option String)
      (network_txn_id : Option String)
      (connector_response_reference_id : Option String)
      (incremental_authorization_allowed : Option Bool)
deriving DecidableEq, Repr

/-- `types::RefundsResponseData`. -/
structure RefundsResponseData where
  connector_refund_id : String
  refund_status : enums.RefundStatus
deriving DecidableEq, Repr

/-- Flow marker `api::Authorize` (zero-sized type-level discriminator). -/
structure Authorize where
deriving DecidableEq, Repr

/-- Flow marker `api::Execute` (refund execution). -/
structure Execute where
deriving DecidableEq, Repr

/-- Flow marker `api::RSync` (refund sync). -/
structure RSync where
deriving DecidableEq, Repr

/-- Flow marker `api::Authentication` (3-D-Secure authenticate). -/
structure Authentication where
deriving DecidableEq, Repr

/-- `api::MessageCategory`. -/
inductive MessageCategory where
  | Payment
  | NonPayment
deriving DecidableEq, Repr

/-- `types::PaymentsAuthorizeData` (the fields this adapter reads). -/
structure PaymentsAuthorizeData where
  payment_method_data : PaymentMethodData
  amount : Int
  currency : enums.Currency
  capture_method : Option enums.CaptureMethod
deriving DecidableEq, Repr

/-- Modelled from the spec: `PaymentsAuthorizeRequestData::is_auto_capture` lives
in `crates/router/src/connector/utils.rs`, which is not under `src/`. The spec
does not describe capture-method handling, so it is modelled as the total check
that the capture method is automatic or unset. -/
def PaymentsAuthorizeData.is_auto_capture (r : PaymentsAuthorizeData) :
    Except ConnectorError Bool :=
  match r.capture_method with
  | some enums.CaptureMethod.Automatic => Except.ok true
  | none => Except.ok true
  | some _ => Except.ok false

/-- `types::RefundsData` (the fields relevant to the refund flows). -/
structure RefundsData where
  refund_id : String
  connector_transaction_id : String
  refund_amount : Int
  currency : enums.Currency
  payment_amount : Int
  reason : Option String
deriving DecidableEq, Repr

/-- `api_models::payments::Address` / `AddressDetails` (the fields read by the
authentication request builder). -/
structure AddressDetails where
  city : Option String
  country : Option enums.CountryAlpha2
  line1 : Option (Secret String)
  zip : Option (Secret String)
  state : Option (Secret String)
deriving DecidableEq, Repr

/-- `api_models::payments::Address`. -/
structure Address where
  address : Option AddressDetails
deriving DecidableEq, Repr

/-- Modelled from the spec: `AddressDetailsData::to_state_code` lives in
`crates/router/src/connector/utils.rs`, which is not under `src/`. Per the
spec, required processor fields are looked up from the structured billing
sub-object and a missing one is a typed `RequestEncodingFailed` error, so the
state lookup yields the state field and fails with `RequestEncodingFailed`
when it is absent. -/
def AddressDetails.to_state_code (a : AddressDetails) :
    Except ConnectorError (Secret String) :=
  (a.state).okOr ConnectorError.RequestEncodingFailed

/-- Modelled from the spec: `CardData::get_expiry_date_as_yymm` lives in
`crates/router/src/connector/utils.rs`, which is not under `src/`. The spec
says only that timestamp-like wire fields use a fixed format; it is modelled
as the total formatting of the card's two-digit expiry year followed by the
expiry month. -/
def Card.get_expiry_date_as_yymm (c : Card) : Except ConnectorError (Secret String) :=
  let y := c.card_exp_year.peek
  let yy := String.mk (y.data.drop (y.data.length - 2))
  Except.ok ⟨yy ++ c.card_exp_month.peek⟩

/-- `types::authentication::AuthenticationData` (the fields read here). -/
structure AuthenticationData where
  message_version : String
  threeds_server_transaction_id : String
deriving DecidableEq, Repr

/-- Acquirer metadata sub-object of the authentication request data. -/
structure AcquirerDetails where
  acquirer_bin : String
  acquirer_merchant_mid : String
deriving DecidableEq, Repr

/-- `types::BrowserInformation` (browser fingerprint sub-object). -/
structure BrowserInformation where
  java_script_enabled : Option Bool
  accept_header : Option String
  ip_address : Option String
  java_enabled : Option Bool
  language : Option String
  color_depth : Option Nat
  screen_height : Option Nat
  screen_width : Option Nat
  time_zone : Option Int
  user_agent : Option String
deriving DecidableEq, Repr

/-- The request payload of `types::ConnectorAuthenticationRouterData`
(the fields read by the authentication request builder). -/
structure ConnectorAuthenticationRequestData where
  payment_method_data : PaymentMethodData
  currency : Option enums.Currency
  billing_address : Address
  authentication_data : AuthenticationData
  acquirer_details : Option AcquirerDetails
  device_channel : String
  message_category : MessageCategory
  browser_details : BrowserInformation
deriving DecidableEq, Repr

instance {ε α : Type} [DecidableEq ε] [DecidableEq α] : DecidableEq (Except ε α) := fun x y =>
  match x, y with
  | .ok a, .ok b =>
      if h : a = b then .isTrue (by rw [h]) else .isFalse (by simp [h])
  | .error a, .error b =>
      if h : a = b then .isTrue (by rw [h]) else .isFalse (by simp [h])
  | .ok _, .error _ => .isFalse (by simp)
  | .error _, .ok _ => .isFalse (by simp)

/-- `types::RouterData<Flow, Request, Response>`: the canonical operation
envelope (the shared fields this adapter's conversions touch or carry over). -/
structure RouterData (Flow Req Resp : Type) where
  merchant_id : String
  connector : String
  payment_id : String
  attempt_id : String
  status : enums.AttemptStatus
  connector_auth_type : ConnectorAuthType
  description : Option String
  return_url : Option String
  request : Req
  response : Except ErrorResponse Resp
deriving DecidableEq, Repr

/-- `types::PaymentsAuthorizeRouterData`. -/
abbrev PaymentsAuthorizeRouterData :=
  RouterData Authorize PaymentsAuthorizeData PaymentsResponseData

/-- `types::RefundsRouterData<F>`. -/
abbrev RefundsRouterData (F : Type) := RouterData F RefundsData RefundsResponseData

/-- Placeholder response payload of the authentication flow (its outbound
conversion is not part of this source file). -/
structure AuthenticationResponseData where
  trans_status : String
deriving DecidableEq, Repr

/-- `types::ConnectorAuthenticationRouterData`. -/
abbrev ConnectorAuthenticationRouterData :=
  RouterData Authentication ConnectorAuthenticationRequestData AuthenticationResponseData

/-- `types::ResponseRouterData<Flow, R, Request, Response>`: processor response
paired with the original envelope. -/
structure ResponseRouterData (Flow R Req Resp : Type) where
  response : R
  data : RouterData Flow Req Resp
  http_code : Nat
deriving DecidableEq, Repr

/-- `types::RefundsResponseRouterData<F, R>`. -/
abbrev RefundsResponseRouterData (F R : Type) :=
  ResponseRouterData F R RefundsData RefundsResponseData

/-- `api::CurrencyUnit` (major vs minor currency-unit preference). -/
inductive CurrencyUnit where
  | Base
  | Minor
deriving DecidableEq, Repr

/-- `ThreedsecureioRouterData<T>`: the amount wrapper threading the normalized
minor-unit amount next to the wrapped payload. -/
structure ThreedsecureioRouterData (T : Type) where
  amount : Int
  router_data : T
deriving DecidableEq, Repr

/-- `TryFrom<(&CurrencyUnit, Currency, i64, T)> for ThreedsecureioRouterData<T>`
(transformers.rs lines 25-48): the explicit currency-unit/currency/amount entry
point. The source carries a TODO and performs no conversion: the amount is taken
as is. -/
def ThreedsecureioRouterData.ofCurrencyTriple {T : Type} (_currency_unit : CurrencyUnit)
    (_currency : enums.Currency) (amount : Int) (item : T) :
    Except ConnectorError (ThreedsecureioRouterData T) :=
  Except.ok { amount := amount, router_data := item }

/-- `TryFrom<(i64, T)> for ThreedsecureioRouterData<T>` (transformers.rs lines
50-59): the bare already-minor-unit entry point. -/
def ThreedsecureioRouterData.ofMinorAmount {T : Type} (amount : Int) (item : T) :
    Except ConnectorError (ThreedsecureioRouterData T) :=
  Except.ok { amount := amount, router_data := item }

/-- `ThreedsecureioCard` (transformers.rs lines 68-75). -/
structure ThreedsecureioCard where
  number : CardNumber
  expiry_month : Secret String
  expiry_year : Secret String
  cvc : Secret String
  complete : Bool
deriving DecidableEq, Repr

/-- `ThreedsecureioPaymentsRequest` (transformers.rs lines 62-66). -/
structure ThreedsecureioPaymentsRequest where
  amount : Int
  card : ThreedsecureioCard
deriving DecidableEq, Repr

/-- `TryFrom<&ThreedsecureioRouterData<&PaymentsAuthorizeRouterData>> for
ThreedsecureioPaymentsRequest` (transformers.rs lines 77-101). -/
def ThreedsecureioPaymentsRequest.try_from
    (item : ThreedsecureioRouterData PaymentsAuthorizeRouterData) :
    Except ConnectorError ThreedsecureioPaymentsRequest :=
  match item.router_data.request.payment_method_data with
  | PaymentMethodData.Card req_card => do
      let auto ← item.router_data.request.is_auto_capture
      Except.ok
        { amount := item.amount,
          card :=
            { number := req_card.card_number,
              expiry_month := req_card.card_exp_month,
              expiry_year := req_card.card_exp_year,
              cvc := req_card.card_cvc,
              complete := auto } }
  | _ => Except.error (ConnectorError.NotImplemented "Payment methods")

/-- `ThreedsecureioAuthType` (transformers.rs lines 105-107). -/
structure ThreedsecureioAuthType where
  api_key : Secret String
deriving DecidableEq, Repr

/-- `TryFrom<&ConnectorAuthType> for ThreedsecureioAuthType` (transformers.rs
lines 109-119). -/
def ThreedsecureioAuthType.try_from (auth_type : ConnectorAuthType) :
    Except ConnectorError ThreedsecureioAuthType :=
  match auth_type with
  | ConnectorAuthType.HeaderKey api_key => Except.ok { api_key := api_key }
  | _ => Except.error ConnectorError.FailedToObtainAuthType

/-- `ThreedsecureioPaymentStatus` (transformers.rs lines 122-129). -/
inductive ThreedsecureioPaymentStatus where
  | Succeeded
  | Failed
  | Processing
deriving DecidableEq, Repr

/-- `From<ThreedsecureioPaymentStatus> for enums::AttemptStatus`
(transformers.rs lines 131-139). -/
def enums.AttemptStatus.ofPaymentStatus : ThreedsecureioPaymentStatus → enums.AttemptStatus
  | ThreedsecureioPaymentStatus.Succeeded => enums.AttemptStatus.Charged
  | ThreedsecureioPaymentStatus.Failed => enums.AttemptStatus.Failure
  | ThreedsecureioPaymentStatus.Processing => enums.AttemptStatus.Authorizing

/-- `ThreedsecureioPaymentsResponse` (transformers.rs lines 142-146). -/
structure ThreedsecureioPaymentsResponse where
  status : ThreedsecureioPaymentStatus
  id : String
deriving DecidableEq, Repr

/-- `TryFrom<ResponseRouterData<F, ThreedsecureioPaymentsResponse, T,
PaymentsResponseData>> for RouterData<F, T, PaymentsResponseData>`
(transformers.rs lines 148-181): status and the outcome slot are newly
written, every other envelope field comes from `..item.data`. -/
def RouterData.try_from_payments_response {F Req : Type}
    (item : ResponseRouterData F ThreedsecureioPaymentsResponse Req PaymentsResponseData) :
    Except ConnectorError (RouterData F Req PaymentsResponseData) :=
  Except.ok
    { item.data with
      status := enums.AttemptStatus.ofPaymentStatus item.response.status,
      response := Except.ok
        (PaymentsResponseData.TransactionResponse
          (ResponseId.ConnectorTransactionId item.response.id)
          none none none none none none) }

/-- `ThreedsecureioRefundRequest` (transformers.rs lines 186-189). -/
structure ThreedsecureioRefundRequest where
  amount : Int
deriving DecidableEq, Repr

/-- `TryFrom<&ThreedsecureioRouterData<&RefundsRouterData<F>>> for
ThreedsecureioRefundRequest` (transformers.rs lines 191-202). -/
def ThreedsecureioRefundRequest.try_from {F : Type}
    (item : ThreedsecureioRouterData (RefundsRouterData F)) :
    Except ConnectorError ThreedsecureioRefundRequest :=
  Except.ok { amount := item.amount }

/-- `RefundStatus` (the processor's refund status, transformers.rs lines 207-213). -/
inductive RefundStatus where
  | Succeeded
  | Failed
  | Processing
deriving DecidableEq, Repr

/-- `From<RefundStatus> for enums::RefundStatus` (transformers.rs lines
215-224; the `Processing => Pending` arm carries a review-mapping TODO in the
source). -/
def RefundStatus.toCanonical : RefundStatus → enums.RefundStatus
  | RefundStatus.Succeeded => enums.RefundStatus.Success
  | RefundStatus.Failed => enums.RefundStatus.Failure
  | RefundStatus.Processing => enums.RefundStatus.Pending

/-- `RefundResponse` (transformers.rs lines 227-231). -/
structure RefundResponse where
  id : String
  status : RefundStatus
deriving DecidableEq, Repr

/-- `TryFrom<RefundsResponseRouterData<Execute, RefundResponse>> for
RefundsRouterData<Execute>` (transformers.rs lines 233-248): only the outcome
slot is newly written, everything else comes from `..item.data`. -/
def RefundsRouterData.try_from_execute_response
    (item : RefundsResponseRouterData Execute RefundResponse) :
    Except ConnectorError (RefundsRouterData Execute) :=
  Except.ok
    { item.data with
      response := Except.ok
        { connector_refund_id := item.response.id,
          refund_status := RefundStatus.toCanonical item.response.status } }

/-- `TryFrom<RefundsResponseRouterData<RSync, RefundResponse>> for
RefundsRouterData<RSync>` (transformers.rs lines 250-265). -/
def RefundsRouterData.try_from_rsync_response
    (item : RefundsResponseRouterData RSync RefundResponse) :
    Except ConnectorError (RefundsRouterData RSync) :=
  Except.ok
    { item.data with
      response := Except.ok
        { connector_refund_id := item.response.id,
          refund_status := RefundStatus.toCanonical item.response.status } }

/-- `get_card_details` (transformers.rs lines 267-274): non-card payment-method
data is a `RequestEncodingFailed` error. -/
def get_card_details (payment_method_data : PaymentMethodData) :
    Except ConnectorError Card :=
  match payment_method_data with
  | PaymentMethodData.Card details => Except.ok details
  | _ => Except.error ConnectorError.RequestEncodingFailed

/-- `ThreedsecureioAuthenticationRequest` (transformers.rs lines 535-580). -/
structure ThreedsecureioAuthenticationRequest where
  ds_start_protocol_version : String
  ds_end_protocol_version : String
  acs_start_protocol_version : String
  acs_end_protocol_version : String
  three_dsserver_trans_id : String
  acct_number : CardNumber
  notification_url : String
  three_dscomp_ind : String
  three_dsrequestor_url : String
  acquirer_bin : String
  acquirer_merchant_id : String
  card_expiry_date : String
  bill_addr_city : String
  bill_addr_country : String
  bill_addr_line1 : String
  bill_addr_post_code : String
  bill_addr_state : String
  three_dsrequestor_authentication_ind : String
  device_channel : String
  message_category : String
  browser_javascript_enabled : Bool
  browser_accept_header : String
  browser_ip : Option String
  browser_java_enabled : Bool
  browser_language : String
  browser_color_depth : String
  browser_screen_height : String
  browser_screen_width : String
  browser_tz : String
  browser_user_agent : String
  mcc : String
  merchant_country_code : String
  merchant_name : String
  message_type : String
  message_version : String
  purchase_amount : String
  purchase_currency : String
  trans_type : String
  purchase_exponent : String
  purchase_date : String
deriving DecidableEq, Repr

/-- `TryFrom<&ThreedsecureioRouterData<&ConnectorAuthenticationRouterData>> for
ThreedsecureioAuthenticationRequest` (transformers.rs lines 276-491). The
fallible lookups appear in the source's evaluation order; `now` stands for the
`date_time::now()` read formatted as `YYYYMMDDHHmmss`. -/
def ThreedsecureioAuthenticationRequest.try_from (now : String)
    (item : ThreedsecureioRouterData ConnectorAuthenticationRouterData) :
    Except ConnectorError ThreedsecureioAuthenticationRequest :=
  match get_card_details item.router_data.request.payment_method_data with
  | Except.error e => Except.error e
  | Except.ok card_details =>
  match item.router_data.request.currency.map enums.Currency.toStr with
  | none => Except.error ConnectorError.RequestEncodingFailed
  | some currency =>
  match IsoCurrency.from_code currency with
  | none => Except.error ConnectorError.RequestEncodingFailed
  | some purchase_currency =>
  match item.router_data.request.billing_address.address with
  | none => Except.error ConnectorError.RequestEncodingFailed
  | some address =>
  match address.to_state_code with
  | Except.error e => Except.error e
  | Except.ok billing_state =>
  match item.router_data.request.billing_address.address.bind
      (fun address => address.country) with
  | none => Except.error ConnectorError.RequestEncodingFailed
  | some billing_country_alpha2 =>
  match CountryCode.for_alpha2 billing_country_alpha2.toStr with
  | none => Except.error ConnectorError.RequestEncodingFailed
  | some billing_country =>
  match item.router_data.request.acquirer_details.map
      (fun acquirer => acquirer.acquirer_bin) with
  | none => Except.error ConnectorError.RequestEncodingFailed
  | some acquirer_bin =>
  match item.router_data.request.acquirer_details.map
      (fun acquirer => acquirer.acquirer_merchant_mid) with
  | none => Except.error ConnectorError.RequestEncodingFailed
  | some acquirer_merchant_id =>
  match card_details.get_expiry_date_as_yymm with
  | Except.error e => Except.error e
  | Except.ok card_expiry_date =>
  match item.router_data.request.billing_address.address.bind
      (fun address => address.city) with
  | none => Except.error ConnectorError.RequestEncodingFailed
  | some bill_addr_city =>
  match item.router_data.request.billing_address.address.bind
      (fun address => address.line1) with
  | none => Except.error ConnectorError.RequestEncodingFailed
  | some bill_addr_line1 =>
  match item.router_data.request.billing_address.address.bind
      (fun address => address.zip) with
  | none => Except.error ConnectorError.RequestEncodingFailed
  | some bill_addr_post_code =>
  match item.router_data.request.browser_details.java_script_enabled with
  | none => Except.error ConnectorError.RequestEncodingFailed
  | some browser_javascript_enabled =>
  match item.router_data.request.browser_details.accept_header with
  | none => Except.error ConnectorError.RequestEncodingFailed
  | some browser_accept_header =>
  match item.router_data.request.browser_details.java_enabled with
  | none => Except.error ConnectorError.RequestEncodingFailed
  | some browser_java_enabled =>
  match item.router_data.request.browser_details.language with
  | none => Except.error ConnectorError.RequestEncodingFailed
  | some browser_language =>
  match item.router_data.request.browser_details.color_depth with
  | none => Except.error ConnectorError.RequestEncodingFailed
  | some browser_color_depth =>
  match item.router_data.request.browser_details.screen_height with
  | none => Except.error ConnectorError.RequestEncodingFailed
  | some browser_screen_height =>
  match item.router_data.request.browser_details.screen_width with
  | none => Except.error ConnectorError.RequestEncodingFailed
  | some browser_screen_width =>
  match item.router_data.request.browser_details.time_zone with
  | none => Except.error ConnectorError.RequestEncodingFailed
  | some browser_tz =>
  match item.router_data.request.browser_details.user_agent with
  | none => Except.error ConnectorError.RequestEncodingFailed
  | some browser_user_agent =>
  Except.ok
    { ds_start_protocol_version := item.router_data.request.authentication_data.message_version,
      ds_end_protocol_version := item.router_data.request.authentication_data.message_version,
      acs_start_protocol_version := item.router_data.request.authentication_data.message_version,
      acs_end_protocol_version := item.router_data.request.authentication_data.message_version,
      three_dsserver_trans_id :=
        item.router_data.request.authentication_data.threeds_server_transaction_id,
      acct_number := card_details.card_number,
      notification_url := "https://webhook.site/8d03e3ea-a7d8-48f5-a200-476bca75a55c",
      three_dscomp_ind := "Y",
      three_dsrequestor_url := "https::/google.com",
      acquirer_bin := acquirer_bin,
      acquirer_merchant_id := acquirer_merchant_id,
      card_expiry_date := card_expiry_date.expose,
      bill_addr_city := bill_addr_city,
      bill_addr_country := toString billing_country.numericId,
      bill_addr_line1 := bill_addr_line1.expose,
      bill_addr_post_code := bill_addr_post_code.expose,
      bill_addr_state := billing_state.peek,
      three_dsrequestor_authentication_ind := "01",
      device_channel := item.router_data.request.device_channel,
      message_category :=
        if item.router_data.request.message_category = MessageCategory.Payment then "01"
        else "02",
      browser_javascript_enabled := browser_javascript_enabled,
      browser_accept_header := browser_accept_header,
      browser_ip := item.router_data.request.browser_details.ip_address,
      browser_java_enabled := browser_java_enabled,
      browser_language := browser_language,
      browser_color_depth := toString browser_color_depth,
      browser_screen_height := toString browser_screen_height,
      browser_screen_width := toString browser_screen_width,
      browser_tz := toString browser_tz,
      browser_user_agent := browser_user_agent,
      mcc := "5411",
      merchant_country_code := "840",
      merchant_name := "Dummy Merchant",
      message_type := "AReq",
      message_version := item.router_data.request.authentication_data.message_version,
      purchase_amount := toString item.amount,
      purchase_currency := purchase_currency.numericStr,
      trans_type := "01",
      purchase_exponent := "2",
      purchase_date := now }

/-- Rust `str::split('.')` on the underlying character list: separators delimit
(possibly empty) segments, and an empty input yields one empty segment. -/
def splitOnChar (sep : Char) : List Char → List (List Char)
  | [] => [[]]
  | c :: cs =>
      let rest := splitOnChar sep cs
      if c = sep then [] :: rest
      else
        match rest with
        | r :: rs => (c :: r) :: rs
        | [] => [[c]]

/-- One decimal digit of a Rust `i64` literal. -/
def digitVal (c : Char) : Option Nat :=
  if c.isDigit then some (c.toNat - 48) else none

/-- Accumulate decimal digits; any non-digit character fails. -/
def parseDigitsAux : List Char → Nat → Option Nat
  | [], acc => some acc
  | c :: cs, acc =>
      match digitVal c with
      | some d => parseDigitsAux cs (acc * 10 + d)
      | none => none

/-- A non-empty all-digit run. -/
def parseDigits (l : List Char) : Option Nat :=
  match l with
  | [] => none
  | _ => parseDigitsAux l 0

/-- Rust `str::parse::<i64>`: optional sign followed by at least one digit,
with the `i64` range check — a magnitude beyond `i64::MAX` (`2^63 - 1`, or
`2^63` for a negative number) is a parse error, mirroring Rust's overflow
failure. -/
def parseI64 (s : List Char) : Option Int :=
  match s with
  | [] => none
  | c :: rest =>
      if c = '-' then
        (parseDigits rest).bind (fun n =>
          if n ≤ 2 ^ 63 then some (-(n : Int)) else none)
      else if c = '+' then
        (parseDigits rest).bind (fun n =>
          if n ≤ 2 ^ 63 - 1 then some ((n : Int)) else none)
      else
        (parseDigits s).bind (fun n =>
          if n ≤ 2 ^ 63 - 1 then some ((n : Int)) else none)

/-- `ForeignTryFrom<String> for (i64, i64, i64)` (transformers.rs lines
637-673): the dotted protocol-version string is split on dots, the first three
segments are taken (a missing one is a `ResponseDeserializationFailed` error)
and each is parsed as an integer (a parse failure is likewise
`ResponseDeserializationFailed`). -/
def foreign_try_from (value : String) : Except ConnectorError (Int × Int × Int) := do
  let splitted_version := splitOnChar '.' value.data
  let major_version ← (splitted_version.get? 0).okOr
    ConnectorError.ResponseDeserializationFailed
  let minor_version ← (splitted_version.get? 1).okOr
    ConnectorError.ResponseDeserializationFailed
  let patch_version ← (splitted_version.get? 2).okOr
    ConnectorError.ResponseDeserializationFailed
  let major ← (parseI64 major_version).okOr ConnectorError.ResponseDeserializationFailed
  let minor ← (parseI64 minor_version).okOr ConnectorError.ResponseDeserializationFailed
  let patch ← (parseI64 patch_version).okOr ConnectorError.ResponseDeserializationFailed
  Except.ok (major, minor, patch)

/-- Spec-side predicate (not from the source): the payment-method data is the
`Card` variant. Used to quantify over the unsupported variants. -/
def PaymentMethodData.isCardVariant : PaymentMethodData → Bool
  | PaymentMethodData.Card _ => true
  | _ => false

/-- Spec-side predicate (not from the source): some processor-required optional
field of the authentication request data is absent — billing address, billing
country, city, line1, zip, currency, acquirer details, or a required browser
detail (`ip_address` is genuinely optional in the source and is excluded). -/
def missingRequiredAuthnField (r : ConnectorAuthenticationRequestData) : Prop :=
  r.billing_address.address = none ∨
  r.billing_address.address.bind (fun address => address.country) = none ∨
  r.billing_address.address.bind (fun address => address.city) = none ∨
  r.billing_address.address.bind (fun address => address.line1) = none ∨
  r.billing_address.address.bind (fun address => address.zip) = none ∨
  r.currency = none ∨
  r.acquirer_details = none ∨
  r.browser_details.java_script_enabled = none ∨
  r.browser_details.accept_header = none ∨
  r.browser_details.java_enabled = none ∨
  r.browser_details.language = none ∨
  r.browser_details.color_depth = none ∨
  r.browser_details.screen_height = none ∨
  r.browser_details.screen_width = none ∨
  r.browser_details.time_zone = none ∨
  r.browser_details.user_agent = none

/-- Concrete card used by the sample envelopes. -/
def sampleCard : Card :=
  { card_number := ⟨"4000100011112224"⟩, card_exp_month := ⟨"06"⟩,
    card_exp_year := ⟨"2027"⟩, card_cvc := ⟨"123"⟩ }

/-- Fully populated browser fingerprint sample. -/
def sampleBrowser : BrowserInformation :=
  { java_script_enabled := some true, accept_header := some "*/*",
    ip_address := some "127.0.0.1", java_enabled := some false,
    language := some "en-US", color_depth := some 24,
    screen_height := some 1080, screen_width := some 1920,
    time_zone := some (-330), user_agent := some "Mozilla" }

/-- Fully populated billing address sample. -/
def sampleAddrDetails : AddressDetails :=
  { city := some "San Fransico", country := some enums.CountryAlpha2.US,
    line1 := some ⟨"1467 Harrison Street"⟩, zip := some ⟨"94122"⟩,
    state := some ⟨"California"⟩ }

/-- Fully populated authentication request data sample. -/
def sampleAuthnReq : ConnectorAuthenticationRequestData :=
  { payment_method_data := PaymentMethodData.Card sampleCard,
    currency := some enums.Currency.USD,
    billing_address := { address := some sampleAddrDetails },
    authentication_data := { message_version := "2.2.0",
                             threeds_server_transaction_id := "3ds-trans-id" },
    acquirer_details := some { acquirer_bin := "438418", acquirer_merchant_mid := "mid123" },
    device_channel := "02",
    message_category := MessageCategory.Payment,
    browser_details := sampleBrowser }

/-- Sample canonical envelope for the authenticate flow. -/
def sampleAuthnEnvelope : ConnectorAuthenticationRouterData :=
  { merchant_id := "merchant_1", connector := "threedsecureio",
    payment_id := "pay_1", attempt_id := "attempt_1",
    status := enums.AttemptStatus.Started,
    connector_auth_type := ConnectorAuthType.HeaderKey ⟨"api-key"⟩,
    description := none, return_url := none,
    request := sampleAuthnReq,
    response := Except.error { code := "no", message := "not populated", status_code := 0 } }

/-- The sample authenticate envelope behind the amount wrapper. -/
def sampleAuthnItem : ThreedsecureioRouterData ConnectorAuthenticationRouterData :=
  { amount := 1050, router_data := sampleAuthnEnvelope }

/-- The processor request the adapter builds from `sampleAuthnItem` at clock
reading `20240101120000`. -/
def sampleAuthnOut : ThreedsecureioAuthenticationRequest :=
  { ds_start_protocol_version := "2.2.0",
    ds_end_protocol_version := "2.2.0",
    acs_start_protocol_version := "2.2.0",
    acs_end_protocol_version := "2.2.0",
    three_dsserver_trans_id := "3ds-trans-id",
    acct_number := { value := "4000100011112224" },
    notification_url := "https://webhook.site/8d03e3ea-a7d8-48f5-a200-476bca75a55c",
    three_dscomp_ind := "Y",
    three_dsrequestor_url := "https::/google.com",
    acquirer_bin := "438418",
    acquirer_merchant_id := "mid123",
    card_expiry_date := "2706",
    bill_addr_city := "San Fransico",
    bill_addr_country := "840",
    bill_addr_line1 := "1467 Harrison Street",
    bill_addr_post_code := "94122",
    bill_addr_state := "California",
    three_dsrequestor_authentication_ind := "01",
    device_channel := "02",
    message_category := "01",
    browser_javascript_enabled := true,
    browser_accept_header := "*/*",
    browser_ip := some "127.0.0.1",
    browser_java_enabled := false,
    browser_language := "en-US",
    browser_color_depth := "24",
    browser_screen_height := "1080",
    browser_screen_width := "1920",
    browser_tz := "-330",
    browser_user_agent := "Mozilla",
    mcc := "5411",
    merchant_country_code := "840",
    merchant_name := "Dummy Merchant",
    message_type := "AReq",
    message_version := "2.2.0",
    purchase_amount := "1050",
    purchase_currency := "840",
    trans_type := "01",
    purchase_exponent := "2",
    purchase_date := "20240101120000" }

/-- The sample authenticate envelope with the billing address absent. -/
def sampleMissingAddrItem : ThreedsecureioRouterData ConnectorAuthenticationRouterData :=
  { amount := 1050,
    router_data := { sampleAuthnEnvelope with
      request := { sampleAuthnReq with billing_address := { address := none } } } }

/-- The sample authenticate envelope with a wallet payment method. -/
def sampleWalletAuthnItem : ThreedsecureioRouterData ConnectorAuthenticationRouterData :=
  { amount := 1050,
    router_data := { sampleAuthnEnvelope with
      request := { sampleAuthnReq with payment_method_data := PaymentMethodData.Wallet } } }

/-- Authorize-flow canonical envelope for the scenario of spec §8: card payment
method, minor-unit amount 1050, currency USD. -/
def authorizeScenarioRouterData (card : Card) : PaymentsAuthorizeRouterData :=
  { merchant_id := "merchant_1", connector := "threedsecureio",
    payment_id := "pay_1", attempt_id := "attempt_1",
    status := enums.AttemptStatus.Started,
    connector_auth_type := ConnectorAuthType.HeaderKey ⟨"api-key"⟩,
    description := none, return_url := none,
    request := { payment_method_data := PaymentMethodData.Card card, amount := 1050,
                 currency := enums.Currency.USD, capture_method := none },
    response := Except.error { code := "no", message := "not populated", status_code := 0 } }

/-- Sample authorize envelope with the concrete sample card. -/
def samplePayEnvelope : PaymentsAuthorizeRouterData :=
  authorizeScenarioRouterData sampleCard

/-- Processor payment response `succeeded` paired with the sample authorize
envelope. -/
def samplePayRespItem :
    ResponseRouterData Authorize ThreedsecureioPaymentsResponse PaymentsAuthorizeData
      PaymentsResponseData :=
  { response := { status := ThreedsecureioPaymentStatus.Succeeded, id := "trans_1" },
    data := samplePayEnvelope, http_code := 200 }

/-- The envelope the outbound payment-response transform rebuilds from
`samplePayRespItem`. -/
def samplePayRespOut : RouterData Authorize PaymentsAuthorizeData PaymentsResponseData :=
  { samplePayEnvelope with
    status := enums.AttemptStatus.Charged,
    response := Except.ok
      (PaymentsResponseData.TransactionResponse
        (ResponseId.ConnectorTransactionId "trans_1") none none none none none none) }

/-- Sample refund (Execute) canonical envelope. -/
def sampleRefundEnvelope : RefundsRouterData Execute :=
  { merchant_id := "merchant_1", connector := "threedsecureio",
    payment_id := "pay_1", attempt_id := "attempt_1",
    status := enums.AttemptStatus.Charged,
    connector_auth_type := ConnectorAuthType.HeaderKey ⟨"api-key"⟩,
    description := none, return_url := none,
    request := { refund_id := "ref_1", connector_transaction_id := "trans_1",
                 refund_amount := 500, currency := enums.Currency.USD,
                 payment_amount := 1050, reason := none },
    response := Except.error { code := "no", message := "not populated", status_code := 0 } }

/-- Processor refund response `Succeeded` paired with the sample refund envelope. -/
def sampleRefundRespItem : RefundsResponseRouterData Execute RefundResponse :=
  { response := { id := "refund_conn_1", status := RefundStatus.Succeeded },
    data := sampleRefundEnvelope, http_code := 200 }

/-- The envelope the outbound refund-response transform rebuilds from
`sampleRefundRespItem`. -/
def sampleRefundRespOut : RefundsRouterData Execute :=
  { sampleRefundEnvelope with
    response := Except.ok
      { connector_refund_id := "refund_conn_1",
        refund_status := enums.RefundStatus.Success } }

/-- Sample authorize envelope with a wallet payment method. -/
def sampleWalletPayItem : ThreedsecureioRouterData PaymentsAuthorizeRouterData :=
  { amount := 1050,
    router_data := { samplePayEnvelope with
      request := { samplePayEnvelope.request with
        payment_method_data := PaymentMethodData.Wallet } } }

/-- C1: for every processor success response, the outbound payment-response and
refund-response transforms rebuild an envelope whose fields other than the
status and the outcome slot are identical to the original envelope: merchant
id, connector id, amount, and payment-method data are carried over verbatim;
only status and response are newly written. -/
theorem outbound_response_transforms_preserve_envelope_context {F : Type}
    (item : ResponseRouterData F ThreedsecureioPaymentsResponse PaymentsAuthorizeData
      PaymentsResponseData)
    (ritem : RefundsResponseRouterData Execute RefundResponse)
    (env : RouterData F PaymentsAuthorizeData PaymentsResponseData)
    (renv : RefundsRouterData Execute)
    (h : RouterData.try_from_payments_response item = Except.ok env)
    (hr : RefundsRouterData.try_from_execute_response ritem = Except.ok renv) :
    (env.merchant_id = item.data.merchant_id ∧ env.connector = item.data.connector ∧
     env.payment_id = item.data.payment_id ∧ env.attempt_id = item.data.attempt_id ∧
     env.connector_auth_type = item.data.connector_auth_type ∧
     env.description = item.data.description ∧ env.return_url = item.data.return_url ∧
     env.request = item.data.request ∧
     env.request.amount = item.data.request.amount ∧
     env.request.payment_method_data = item.data.request.payment_method_data) ∧
    (renv.merchant_id = ritem.data.merchant_id ∧ renv.connector = ritem.data.connector ∧
     renv.payment_id = ritem.data.payment_id ∧ renv.attempt_id = ritem.data.attempt_id ∧
     renv.connector_auth_type = ritem.data.connector_auth_type ∧
     renv.description = ritem.data.description ∧ renv.return_url = ritem.data.return_url ∧
     renv.status = ritem.data.status ∧
     renv.request = ritem.data.request ∧
     renv.request.refund_amount = ritem.data.request.refund_amount) := by
  unfold RouterData.try_from_payments_response at h
  unfold RefundsRouterData.try_from_execute_response at hr
  simp only [Except.ok.injEq] at h hr
  subst h; subst hr
  simp

/-- C1 witness: the frame property instantiated at a concrete successful
payment response and refund response. -/
theorem outbound_response_transforms_preserve_envelope_context_witness :
    samplePayRespOut.merchant_id = samplePayRespItem.data.merchant_id ∧
    samplePayRespOut.request = samplePayRespItem.data.request ∧
    sampleRefundRespOut.merchant_id = sampleRefundRespItem.data.merchant_id ∧
    sampleRefundRespOut.request = sampleRefundRespItem.data.request :=
  have h := outbound_response_transforms_preserve_envelope_context samplePayRespItem
    sampleRefundRespItem samplePayRespOut sampleRefundRespOut rfl rfl
  ⟨h.1.1, h.1.2.2.2.2.2.2.2.1, h.2.1, h.2.2.2.2.2.2.2.2.2.1⟩

/-- C2: the foreign-type protocol-version conversion parses `"2.2.0"` to
`(2, 2, 0)`, and on `"2.2"` (fewer than three components) and `"2.x.0"` (a
non-numeric component) it returns `ResponseDeserializationFailed` instead of
panicking or indexing out of bounds. -/
theorem protocol_version_parsing_spec_examples :
    foreign_try_from "2.2.0" = Except.ok (2, 2, 0) ∧
    foreign_try_from "2.2" = Except.error ConnectorError.ResponseDeserializationFailed ∧
    foreign_try_from "2.x.0" = Except.error ConnectorError.ResponseDeserializationFailed :=
  ⟨by decide, by decide, by decide⟩

/-- C3: for every canonical envelope missing a processor-required optional
field (billing address, billing country, city, line1, zip, currency, acquirer
details, or a required browser detail), the authentication-request inbound
transform returns `RequestEncodingFailed` and produces no request value. -/
theorem authn_request_missing_required_field_fails (now : String)
    (item : ThreedsecureioRouterData ConnectorAuthenticationRouterData)
    (h : missingRequiredAuthnField item.router_data.request) :
    ThreedsecureioAuthenticationRequest.try_from now item =
      Except.error ConnectorError.RequestEncodingFailed := by
  unfold ThreedsecureioAuthenticationRequest.try_from
  unfold missingRequiredAuthnField at h
  repeat' split
  all_goals simp_all [get_card_details.eq_def, AddressDetails.to_state_code.eq_def,
    Option.okOr.eq_def, Card.get_expiry_date_as_yymm]
  all_goals (try (rename_i heq; split at heq <;> simp_all))
  all_goals aesop

/-- C3 witness: the missing-field failure at a concrete envelope whose billing
address is absent. -/
theorem authn_request_missing_required_field_fails_witness :
    missingRequiredAuthnField sampleMissingAddrItem.router_data.request ∧
    ThreedsecureioAuthenticationRequest.try_from "20240101120000" sampleMissingAddrItem =
      Except.error ConnectorError.RequestEncodingFailed :=
  ⟨Or.inl rfl,
    authn_request_missing_required_field_fails "20240101120000" sampleMissingAddrItem
      (Or.inl rfl)⟩

/-- C4 counterexample: on the authenticate flow (one of the two conversions the
claim covers), a wallet payment method makes the inbound transform fail with
`RequestEncodingFailed` — which is not a `NotImplemented` error — so the claim
that every non-card variant yields a typed `NotImplemented` error is false as
stated. -/
theorem authn_noncard_counterexample :
    ThreedsecureioAuthenticationRequest.try_from "20240101120000" sampleWalletAuthnItem =
      Except.error ConnectorError.RequestEncodingFailed ∧
    get_card_details PaymentMethodData.Wallet =
      Except.error ConnectorError.RequestEncodingFailed ∧
    ConnectorError.RequestEncodingFailed ≠ ConnectorError.NotImplemented "Payment methods" :=
  ⟨by decide, by decide, by decide⟩

/-- C4 (amended): for every envelope whose payment-method data is not the card
variant, the authorize-flow inbound transform fails with the typed error
`NotImplemented "Payment methods"` (a constant feature string, not the specific
variant), while the authenticate-flow inbound transform fails with the typed
error `RequestEncodingFailed`; neither panics. -/
theorem noncard_payment_method_typed_errors (now : String)
    (item : ThreedsecureioRouterData PaymentsAuthorizeRouterData)
    (aitem : ThreedsecureioRouterData ConnectorAuthenticationRouterData)
    (h : item.router_data.request.payment_method_data.isCardVariant = false)
    (ha : aitem.router_data.request.payment_method_data.isCardVariant = false) :
    ThreedsecureioPaymentsRequest.try_from item =
      Except.error (ConnectorError.NotImplemented "Payment methods") ∧
    ThreedsecureioAuthenticationRequest.try_from now aitem =
      Except.error ConnectorError.RequestEncodingFailed := by
  constructor
  · unfold ThreedsecureioPaymentsRequest.try_from
    split
    · simp_all [PaymentMethodData.isCardVariant]
    · rfl
  · unfold ThreedsecureioAuthenticationRequest.try_from
    split
    · rename_i e heq
      unfold get_card_details at heq
      split at heq <;> simp_all [PaymentMethodData.isCardVariant]
    · rename_i card heq
      unfold get_card_details at heq
      split at heq <;> simp_all [PaymentMethodData.isCardVariant]

/-- C4 witness: the amended behaviour at concrete wallet envelopes for both
flows. -/
theorem noncard_payment_method_typed_errors_witness :
    ThreedsecureioPaymentsRequest.try_from sampleWalletPayItem =
      Except.error (ConnectorError.NotImplemented "Payment methods") ∧
    ThreedsecureioAuthenticationRequest.try_from "20240101120000" sampleWalletAuthnItem =
      Except.error ConnectorError.RequestEncodingFailed :=
  noncard_payment_method_typed_errors "20240101120000" sampleWalletPayItem
    sampleWalletAuthnItem (by decide) (by decide)

/-- C5: on the authorize flow with a card payment method and minor-unit amount
1050 in USD, building the processor request succeeds with amount exactly 1050,
and the payment-status remap sends Succeeded to Charged, Failed to Failure and
Processing to Authorizing (total and deterministic). -/
theorem authorize_scenario_amount_and_status_mapping (u : CurrencyUnit) (card : Card) :
    ThreedsecureioRouterData.ofCurrencyTriple u enums.Currency.USD 1050
        (authorizeScenarioRouterData card) =
      Except.ok { amount := 1050, router_data := authorizeScenarioRouterData card } ∧
    ThreedsecureioPaymentsRequest.try_from
        { amount := 1050, router_data := authorizeScenarioRouterData card } =
      Except.ok
        { amount := 1050,
          card := { number := card.card_number, expiry_month := card.card_exp_month,
                    expiry_year := card.card_exp_year, cvc := card.card_cvc,
                    complete := true } } ∧
    enums.AttemptStatus.ofPaymentStatus ThreedsecureioPaymentStatus.Succeeded =
      enums.AttemptStatus.Charged ∧
    enums.AttemptStatus.ofPaymentStatus ThreedsecureioPaymentStatus.Failed =
      enums.AttemptStatus.Failure ∧
    enums.AttemptStatus.ofPaymentStatus ThreedsecureioPaymentStatus.Processing =
      enums.AttemptStatus.Authorizing :=
  ⟨rfl, rfl, rfl, rfl, rfl⟩

/-- C6: the credential conversion accepts exactly the `HeaderKey` variant,
returning its api key; each of the other variants (`BodyKey`, `SignatureKey`,
`MultiAuthKey`, `NoKey`) yields the typed error `FailedToObtainAuthType`. -/
theorem auth_type_conversion_variants (k k1 ks k2 : Secret String) :
    ThreedsecureioAuthType.try_from (ConnectorAuthType.HeaderKey k) =
      Except.ok { api_key := k } ∧
    ThreedsecureioAuthType.try_from (ConnectorAuthType.BodyKey k k1) =
      Except.error ConnectorError.FailedToObtainAuthType ∧
    ThreedsecureioAuthType.try_from (ConnectorAuthType.SignatureKey k k1 ks) =
      Except.error ConnectorError.FailedToObtainAuthType ∧
    ThreedsecureioAuthType.try_from (ConnectorAuthType.MultiAuthKey k k1 ks k2) =
      Except.error ConnectorError.FailedToObtainAuthType ∧
    ThreedsecureioAuthType.try_from ConnectorAuthType.NoKey =
      Except.error ConnectorError.FailedToObtainAuthType :=
  ⟨rfl, rfl, rfl, rfl, rfl⟩

/-- C7: both amount-wrapper entry points succeed for every currency-unit
preference, currency, amount and payload, and yield a wrapper whose amount is
the canonical minor-unit amount passed in (so construction never fails for a
recognized currency — the currency argument is the canonical enum, every value
of which is recognized). -/
theorem amount_wrapper_entry_points_always_succeed {T : Type} (u : CurrencyUnit)
    (c : enums.Currency) (amount : Int) (payload : T) :
    ThreedsecureioRouterData.ofCurrencyTriple u c amount payload =
      Except.ok { amount := amount, router_data := payload } ∧
    ThreedsecureioRouterData.ofMinorAmount amount payload =
      Except.ok { amount := amount, router_data := payload } :=
  ⟨rfl, rfl⟩

/-- C8: for every input string with more than three dot-separated components
whose first three components parse as integers, the protocol-version conversion
succeeds with the triple of the first three components, silently ignoring the
extras. -/
theorem version_parse_ignores_extra_components (s : String) (a b c : List Char)
    (rest : List (List Char)) (x y z : Int)
    (hsplit : splitOnChar '.' s.data = a :: b :: c :: rest)
    (_hrest : rest ≠ [])
    (ha : parseI64 a = some x) (hb : parseI64 b = some y) (hc : parseI64 c = some z) :
    foreign_try_from s = Except.ok (x, y, z) := by
  unfold foreign_try_from
  simp [hsplit, ha, hb, hc, Option.okOr, bind, Except.bind, List.get?]

/-- C8 witness: `"2.2.0.5"` has four components, the first three numeric, and
parses to `(2, 2, 0)`; a first component beyond `i64::MAX` is not numeric for
`i64` and the conversion fails instead, so the theorem's hypotheses do not
cover it. -/
theorem version_parse_ignores_extra_components_witness :
    splitOnChar '.' "2.2.0.5".data = ['2'] :: ['2'] :: ['0'] :: [['5']] ∧
    foreign_try_from "2.2.0.5" = Except.ok (2, 2, 0) ∧
    parseI64 "9223372036854775808".data = none ∧
    foreign_try_from "9223372036854775808.0.0.5" =
      Except.error ConnectorError.ResponseDeserializationFailed :=
  ⟨by decide,
    version_parse_ignores_extra_components "2.2.0.5" ['2'] ['2'] ['0'] [['5']] 2 2 0
      (by decide) (by decide) (by decide) (by decide) (by decide),
    by decide, by decide⟩

/-- C9: the outbound transforms (payment response, refund Execute response,
refund RSync response) are infallible: every deserialized processor response
yields `Ok`, and the rebuilt envelope's outcome slot always holds the success
branch — a `Failed` processor status still yields an `Ok` outcome carrying the
failed canonical status. -/
theorem outbound_response_transforms_always_ok {F Req : Type}
    (item : ResponseRouterData F ThreedsecureioPaymentsResponse Req PaymentsResponseData)
    (eitem : RefundsResponseRouterData Execute RefundResponse)
    (sitem : RefundsResponseRouterData RSync RefundResponse) :
    (∃ env, RouterData.try_from_payments_response item = Except.ok env ∧
      ∃ payload, env.response = Except.ok payload ∧
        env.status = enums.AttemptStatus.ofPaymentStatus item.response.status) ∧
    (∃ renv, RefundsRouterData.try_from_execute_response eitem = Except.ok renv ∧
      ∃ payload, renv.response = Except.ok payload ∧
        payload.refund_status = RefundStatus.toCanonical eitem.response.status) ∧
    (∃ renv, RefundsRouterData.try_from_rsync_response sitem = Except.ok renv ∧
      ∃ payload, renv.response = Except.ok payload ∧
        payload.refund_status = RefundStatus.toCanonical sitem.response.status) :=
  ⟨⟨_, rfl, _, rfl, rfl⟩, ⟨_, rfl, _, rfl, rfl⟩, ⟨_, rfl, _, rfl, rfl⟩⟩

/-- C10: whenever the authentication-request inbound transform succeeds, the
built request carries the envelope-independent constants: mcc "5411", merchant
country code "840", merchant name "Dummy Merchant", the fixed webhook
notification url, requestor url "https::/google.com", message type "AReq",
trans type "01" and purchase exponent "2". -/
theorem authn_request_constant_fields (now : String)
    (item : ThreedsecureioRouterData ConnectorAuthenticationRouterData)
    (req : ThreedsecureioAuthenticationRequest)
    (h : ThreedsecureioAuthenticationRequest.try_from now item = Except.ok req) :
    req.mcc = "5411" ∧ req.merchant_country_code = "840" ∧
    req.merchant_name = "Dummy Merchant" ∧
    req.notification_url = "https://webhook.site/8d03e3ea-a7d8-48f5-a200-476bca75a55c" ∧
    req.three_dsrequestor_url = "https::/google.com" ∧
    req.message_type = "AReq" ∧ req.trans_type = "01" ∧ req.purchase_exponent = "2" := by
  unfold ThreedsecureioAuthenticationRequest.try_from at h
  repeat' split at h
  all_goals (try simp_all)
  all_goals (subst h; exact ⟨rfl, rfl, rfl, rfl, rfl, rfl, rfl, rfl⟩)

/-- C10 witness: the constants on the concrete successful sample conversion. -/
theorem authn_request_constant_fields_witness :
    sampleAuthnOut.mcc = "5411" ∧ sampleAuthnOut.message_type = "AReq" :=
  have h := authn_request_constant_fields "20240101120000" sampleAuthnItem sampleAuthnOut
    (by decide)
  ⟨h.1, h.2.2.2.2.2.1⟩
